import Mathlib

/-
Verification of the data-acquisition core of the NIFTY 200 dashboard
(main.py): the ticker-list retriever with retry, the gainers/losers feed
retriever, and the index snapshot computation, together with their
error/fallback contracts.

Shallow embedding conventions:
- Network and parsing outcomes delivered by the external libraries
  (requests, pandas read_html, response.json) are the environment: each
  run is a pure function of that environment.
- requests.get raising and response.raise_for_status raising on a 4xx/5xx
  status are both instances of requests.exceptions.RequestException, so the
  code treats them identically; we model them as explicit outcome values.
- pandas read_html is modelled as yielding a (possibly empty) list of
  tables, following the source code's own handling (the `if df:` branch in
  get_nifty_200_tickers); each table is represented by its optional
  Symbol column (absent column models a KeyError on df[0]['Symbol']).
- Python floats are modelled by Option Rat: some q is a finite value, none
  is NaN / a missing observation, and arithmetic propagates none the way
  pandas propagates NaN.
- A Python exception escaping a function is an Except.error value; the
  source file never imports the time module, so time.sleep(5) in the
  retry handler of get_nifty_200_tickers raises NameError, which no
  handler catches.
-/

set_option autoImplicit false

namespace NiftyDash

/-- A scalar appearing in a JSON feed record. -/
inductive JVal where
  | num (q : ℚ)
  | str (s : String)
  deriving DecidableEq, Repr

/-- A JSON feed record: an ordered list of field name / value pairs,
as delivered inside the data array of the NSE gainers/losers feeds. -/
abbrev JRecord := List (String × JVal)

/-! ## Ticker List Retriever (get_nifty_200_tickers, main.py lines 32-56) -/

/-- Outcome of one attempt of the ticker-list fetch, as seen by the code:
either requests.get / raise_for_status raises a RequestException
(transport failure or non-2xx status), or the fetch succeeds and
pd.read_html yields a list of tables, each represented by its optional
Symbol column. -/
inductive AttemptOutcome where
  | requestError
  | ok (tables : List (Option (List String)))
  deriving DecidableEq, Repr

/-- Python exceptions that can escape the modelled functions. -/
inductive PyErr where
  | nameError
  | keyError
  deriving DecidableEq, Repr

/-- The retry loop of get_nifty_200_tickers. Arguments: the environment
(outcome of each attempt), the current attempt index, and the remaining
loop iterations (3 at entry, mirroring range(3)). Returns the Python-level
result together with the number of HTTP requests issued.

Body of the loop, per the source:
- on RequestException: show an error; then, when attempt < 2, evaluate
  time.sleep(5) - but the time module is never imported, so this raises
  NameError (uncaught); on the final attempt there is no sleep and the
  loop simply ends, falling through to return [].
- on success: if read_html yielded no table, return []; otherwise take
  the Symbol column of the first table (KeyError when absent) and return
  it. -/
def tickersRun (env : Nat → AttemptOutcome) : Nat → Nat → Except PyErr (List String) × Nat
  | _, 0 => (Except.ok [], 0)
  | attempt, fuel + 1 =>
    match env attempt with
    | AttemptOutcome.requestError =>
      if attempt < 2 then
        (Except.error PyErr.nameError, 1)
      else
        let rest := tickersRun env (attempt + 1) fuel
        (rest.1, rest.2 + 1)
    | AttemptOutcome.ok tables =>
      match tables with
      | [] => (Except.ok [], 1)
      | table :: _ =>
        match table with
        | none => (Except.error PyErr.keyError, 1)
        | some syms => (Except.ok syms, 1)

/-- get_nifty_200_tickers: run the bounded retry loop (3 attempts). -/
def get_nifty_200_tickers (env : Nat → AttemptOutcome) : Except PyErr (List String) :=
  (tickersRun env 0 3).1

/-- Number of HTTP requests a call of get_nifty_200_tickers issues. -/
def tickersRequestCount (env : Nat → AttemptOutcome) : Nat :=
  (tickersRun env 0 3).2

/-! ## Movers Retriever (get_top_gainers_losers, main.py lines 58-97) -/

/-- Outcome of one feed request in get_top_gainers_losers:
- transportFailure: requests.get raises a RequestException;
- httpError: raise_for_status raises HTTPError (a RequestException) on a
  4xx/5xx status;
- jsonError: response.json() raises requests.exceptions.JSONDecodeError,
  which is also a RequestException subclass and is caught by the same
  handler;
- ok data: the body parsed, and data is the value of its data field
  (none when the field is absent, in which case .get supplies []). -/
inductive FeedOutcome where
  | transportFailure
  | httpError
  | jsonError
  | ok (data : Option (List JRecord))
  deriving DecidableEq, Repr

/-- The upstream environment of one get_top_gainers_losers call. -/
structure MoversEnv where
  gainers : FeedOutcome
  losers : FeedOutcome
  deriving DecidableEq, Repr

/-- get_top_gainers_losers: fetch both feeds; any RequestException from
either request is caught and yields two empty frames; a missing data
field defaults to []; an empty gainers frame, or an empty losers frame,
likewise yields two empty frames; otherwise both row lists are returned. -/
def get_top_gainers_losers (env : MoversEnv) : List JRecord × List JRecord :=
  match env.gainers with
  | FeedOutcome.transportFailure => ([], [])
  | FeedOutcome.httpError => ([], [])
  | FeedOutcome.jsonError => ([], [])
  | FeedOutcome.ok gdata =>
    match env.losers with
    | FeedOutcome.transportFailure => ([], [])
    | FeedOutcome.httpError => ([], [])
    | FeedOutcome.jsonError => ([], [])
    | FeedOutcome.ok ldata =>
      let gainersData := gdata.getD []
      let losersData := ldata.getD []
      if gainersData.isEmpty then ([], [])
      else if losersData.isEmpty then ([], [])
      else (gainersData, losersData)

/-- Look up a field of a feed record by name (first occurrence). -/
def lookupField : JRecord → String → Option JVal
  | [], _ => none
  | (k, v) :: rest, key => if k = key then some v else lookupField rest key

/-- The column selection and renaming applied per record by
display_top_movers (main.py lines 136-137 and 146-147):
df[['symbol', 'ltp', 'change', 'pChange']] relabelled to
['Symbol', 'Last Traded Price', 'Change', 'Change %']. -/
def moverRow (r : JRecord) : List (String × Option JVal) :=
  [("Symbol", lookupField r "symbol"),
   ("Last Traded Price", lookupField r "ltp"),
   ("Change", lookupField r "change"),
   ("Change %", lookupField r "pChange")]

/-- display_top_movers: call get_top_gainers_losers, then render each
non-empty frame after selecting the four mover columns. The value is the
pair of displayed tables (empty list = section not rendered). -/
def display_top_movers (env : MoversEnv) :
    List (List (String × Option JVal)) × List (List (String × Option JVal)) :=
  let res := get_top_gainers_losers env
  (if res.1.isEmpty then [] else res.1.map moverRow,
   if res.2.isEmpty then [] else res.2.map moverRow)

/-! ## Index Snapshot Calculator (display_indices, main.py lines 99-129) -/

/-- The Close portion of the batched yf.download result: a rectangular
frame with one column per symbol and chronologically ordered rows; a
none entry is a NaN (missing observation for that symbol on that row). -/
structure CloseFrame where
  symbols : List String
  rows : List (List (Option ℚ))
  deriving DecidableEq, Repr

/-- One displayed row of the Key Indian Indices table. -/
structure IndexRow where
  name : String
  ltp : Option ℚ
  change : Option ℚ
  pct : Option ℚ
  deriving DecidableEq, Repr

/-- The fixed index basket (main.py line 101). -/
def indicesSyms : List String := ["^NSEI", "^CNX200", "^BSESN", "^CNX500"]

/-- The display names of the basket (main.py line 102). -/
def indicesNames : List String := ["NIFTY 50", "NIFTY 200", "SENSEX", "NIFTY 500"]

/-- Series lookup by label, as latest_prices[index] behaves in pandas:
none models a KeyError (label not among the columns); some v is the
stored value, itself an Option (none = NaN). The row is aligned
positionally with the symbol list. -/
def seriesGet : List String → List (Option ℚ) → String → Option (Option ℚ)
  | [], _, _ => none
  | s :: rest, row, sym =>
    if s = sym then some (row.headD none)
    else seriesGet rest row.tail sym

/-- NaN-propagating subtraction of two pandas scalars. -/
def optSub : Option ℚ → Option ℚ → Option ℚ
  | some a, some b => some (a - b)
  | _, _ => none

/-- NaN-propagating percent change: (change / previousClose) * 100. -/
def optPct : Option ℚ → Option ℚ → Option ℚ
  | some c, some p => some (c / p * 100)
  | _, _ => none

/-- The per-index loop of display_indices: build one IndexRow per basket
member; a failed label lookup (KeyError) propagates as none, aborting the
whole table, exactly as the surrounding except Exception handler does. -/
def buildRows (step : String × String → Option IndexRow) :
    List (String × String) → Option (List IndexRow)
  | [] => some []
  | p :: ps =>
    match step p with
    | none => none
    | some r =>
      match buildRows step ps with
      | none => none
      | some rs => some (r :: rs)

/-- display_indices: given the batched Close frame, either display the
four-row indices table (some rows) or display nothing (none: the frame
was empty, iloc[-2] raised IndexError on a 1-row frame, or a per-symbol
lookup raised KeyError - all caught by the outer handler). -/
def display_indices (frame : CloseFrame) : Option (List IndexRow) :=
  if frame.rows.length = 0 ∨ frame.symbols.length = 0 then none
  else if frame.rows.length < 2 then none
  else
    let lastRow := frame.rows.getD (frame.rows.length - 1) []
    let prevRow := frame.rows.getD (frame.rows.length - 2) []
    buildRows
      (fun p =>
        match seriesGet frame.symbols lastRow p.1, seriesGet frame.symbols prevRow p.1 with
        | some ltp, some prev =>
          some { name := p.2, ltp := ltp,
                 change := optSub ltp prev,
                 pct := optPct (optSub ltp prev) prev }
        | _, _ => none)
      (indicesSyms.zip indicesNames)

/-! ## Concrete environments used by the theorems -/

/-- Every attempt ends in a RequestException (transport failure / non-2xx). -/
def envAllFail : Nat → AttemptOutcome := fun _ => AttemptOutcome.requestError

/-- Transport failures on the first two attempts, then a successful fetch
whose first parsed table has the Symbol column [RELIANCE, TCS]. -/
def envRetrySucceeds : Nat → AttemptOutcome := fun n =>
  if n < 2 then AttemptOutcome.requestError
  else AttemptOutcome.ok [some ["RELIANCE", "TCS"]]

/-- The TCS gainers record of the spec example. -/
def tcsRec : JRecord :=
  [("symbol", JVal.str "TCS"), ("ltp", JVal.num (7001 / 2)),
   ("change", JVal.num (51 / 2)), ("pChange", JVal.num (73 / 100))]

/-- A loser record used to populate the losers feed. -/
def infyRec : JRecord :=
  [("symbol", JVal.str "INFY"), ("ltp", JVal.num 1500),
   ("change", JVal.num (-10)), ("pChange", JVal.num (-66 / 100))]

/-- The spec example: gainers feed with the single TCS record, losers
feed with an empty data array; both requests succeed. -/
def envOneGainerNoLoser : MoversEnv :=
  { gainers := FeedOutcome.ok (some [tcsRec]),
    losers := FeedOutcome.ok (some []) }

/-- A gainers record carrying an extra upstream field named series. -/
def tcsRecExtra : JRecord := tcsRec ++ [("series", JVal.str "EQ")]

/-- Both feeds succeed and are non-empty; the gainers record carries an
extra upstream field. -/
def envExtraField : MoversEnv :=
  { gainers := FeedOutcome.ok (some [tcsRecExtra]),
    losers := FeedOutcome.ok (some [infyRec]) }

/-! ## Ticker List Retriever claims -/

/-- C1: the claim says get_nifty_200_tickers never raises on any failure
path. The code violates it: on a transport failure (or non-2xx status) on
the first attempt, the except handler evaluates time.sleep(5), but the
time module is never imported, so the call raises NameError to the
caller instead of retrying and returning a sequence. -/
theorem c1_transport_failure_raises_nameError :
    get_nifty_200_tickers envAllFail = Except.error PyErr.nameError :=
  rfl

/-- C5: the claim says two transport failures followed by a successful
third attempt yield the parsed symbol list. The code never reaches the
third attempt: the first failure raises NameError from the un-imported
time module inside the retry delay. -/
theorem c5_retry_never_reached :
    get_nifty_200_tickers envRetrySucceeds = Except.error PyErr.nameError :=
  rfl

/-- C6: the claim says an all-failure run returns [] after exactly 3
attempts. The code issues exactly one HTTP request and then raises
NameError (missing import of the time module), so no run with transport
failures ever completes 3 attempts or returns []. -/
theorem c6_one_request_then_raise :
    tickersRequestCount envAllFail = 1 ∧
    get_nifty_200_tickers envAllFail = Except.error PyErr.nameError :=
  ⟨rfl, rfl⟩

/-! ## Movers Retriever claims -/

/-- C2 counterexample: with the one-record gainers feed and the empty
losers feed of the spec example, the code returns two empty frames (the
empty losers frame collapses the whole result), not one gainer record
plus an empty losers sequence. -/
theorem c2_empty_losers_collapses_result :
    get_top_gainers_losers envOneGainerNoLoser = ([], []) ∧
    (get_top_gainers_losers envOneGainerNoLoser).1.length = 0 := by
  decide

/-- C2 amended: whenever both feed requests succeed and the losers data
array is empty, get_top_gainers_losers returns two empty sequences,
whatever the gainers feed contained. -/
theorem c2_amended_empty_losers_means_both_empty (env : MoversEnv) (g : Option (List JRecord))
    (hg : env.gainers = FeedOutcome.ok g) (hl : env.losers = FeedOutcome.ok (some [])) :
    get_top_gainers_losers env = ([], []) := by
  obtain ⟨eg, el⟩ := env
  simp only at hg hl
  subst hg; subst hl
  simp only [get_top_gainers_losers, Option.getD, List.isEmpty]
  cases g with
  | none => rfl
  | some gs => cases gs <;> rfl

/-- C2 amended, witness at the spec example environment. -/
theorem c2_amended_witness :
    get_top_gainers_losers envOneGainerNoLoser = ([], []) :=
  c2_amended_empty_losers_means_both_empty envOneGainerNoLoser (some [tcsRec]) rfl rfl

/-- C7: if the gainers request fails with a transport failure or its
status makes raise_for_status raise, the call returns two empty
sequences regardless of the losers feed. -/
theorem c7_gainers_failure_yields_both_empty (env : MoversEnv)
    (h : env.gainers = FeedOutcome.transportFailure ∨ env.gainers = FeedOutcome.httpError) :
    get_top_gainers_losers env = ([], []) := by
  obtain ⟨eg, el⟩ := env
  rcases h with h | h <;> simp only at h <;> subst h <;> rfl

/-- C7 witness: gainers transport failure with a successful, non-empty
losers feed still yields two empty sequences. -/
theorem c7_witness :
    get_top_gainers_losers
      { gainers := FeedOutcome.transportFailure,
        losers := FeedOutcome.ok (some [infyRec]) } = ([], []) :=
  c7_gainers_failure_yields_both_empty
    { gainers := FeedOutcome.transportFailure,
      losers := FeedOutcome.ok (some [infyRec]) }
    (Or.inl rfl)

/-- C10: the pair returned by get_top_gainers_losers is all-or-nothing:
both sequences empty or both non-empty; and an absent or empty data
field on either side forces both sequences empty. -/
theorem c10_all_or_nothing (env : MoversEnv) :
    (((get_top_gainers_losers env).1.length = 0 ∧ (get_top_gainers_losers env).2.length = 0) ∨
      (0 < (get_top_gainers_losers env).1.length ∧ 0 < (get_top_gainers_losers env).2.length)) ∧
    get_top_gainers_losers { gainers := env.gainers, losers := FeedOutcome.ok (some []) } = ([], []) ∧
    get_top_gainers_losers { gainers := env.gainers, losers := FeedOutcome.ok none } = ([], []) ∧
    get_top_gainers_losers { gainers := FeedOutcome.ok (some []), losers := env.losers } = ([], []) ∧
    get_top_gainers_losers { gainers := FeedOutcome.ok none, losers := env.losers } = ([], []) := by
  obtain ⟨eg, el⟩ := env
  refine ⟨?_, ?_, ?_, ?_, ?_⟩
  · cases eg with
    | ok gdata =>
      cases el with
      | ok ldata =>
        cases gdata with
        | none => cases ldata <;> simp [get_top_gainers_losers]
        | some gs =>
          cases ldata with
          | none => simp [get_top_gainers_losers]
          | some ls =>
            cases gs with
            | nil => simp [get_top_gainers_losers]
            | cons g gs =>
              cases ls with
              | nil => simp [get_top_gainers_losers]
              | cons l ls => simp [get_top_gainers_losers]
      | transportFailure => simp [get_top_gainers_losers]
      | httpError => simp [get_top_gainers_losers]
      | jsonError => simp [get_top_gainers_losers]
    | transportFailure => simp [get_top_gainers_losers]
    | httpError => simp [get_top_gainers_losers]
    | jsonError => simp [get_top_gainers_losers]
  · cases eg with
    | ok gdata =>
      cases gdata with
      | none => rfl
      | some gs => cases gs <;> rfl
    | transportFailure => rfl
    | httpError => rfl
    | jsonError => rfl
  · cases eg with
    | ok gdata =>
      cases gdata with
      | none => rfl
      | some gs => cases gs <;> rfl
    | transportFailure => rfl
    | httpError => rfl
    | jsonError => rfl
  · cases el <;> rfl
  · cases el <;> rfl

/-- Rows of a displayed movers table keep exactly the four mover columns:
helper covering one side of display_top_movers. -/
theorem mem_moverTable {l : List JRecord} {row : List (String × Option JVal)}
    (h : row ∈ if l.isEmpty then ([] : List (List (String × Option JVal))) else l.map moverRow) :
    row.map Prod.fst = ["Symbol", "Last Traded Price", "Change", "Change %"] := by
  split at h
  · simp at h
  · obtain ⟨r, _, rfl⟩ := List.mem_map.mp h
    rfl

/-- C8 counterexample: the sequences returned by get_top_gainers_losers
are the raw feed records; the record carrying the extra upstream field
named series is returned unchanged, so the field is not dropped from the
operation's output. -/
theorem c8_extra_field_survives_retriever :
    (get_top_gainers_losers envExtraField).1 = [tcsRecExtra] ∧
    ("series", JVal.str "EQ") ∈ tcsRecExtra :=
  ⟨rfl, by simp [tcsRecExtra, tcsRec]⟩

/-- C8 amended: the four-field selection happens in display_top_movers,
not in get_top_gainers_losers: every row of either displayed table has
exactly the columns Symbol, Last Traded Price, Change and Change %,
drawn from the source keys symbol, ltp, change and pChange; other
upstream fields are dropped there. -/
theorem c8_amended_display_selects_four_fields (env : MoversEnv)
    (row : List (String × Option JVal))
    (h : row ∈ (display_top_movers env).1 ∨ row ∈ (display_top_movers env).2) :
    row.map Prod.fst = ["Symbol", "Last Traded Price", "Change", "Change %"] := by
  rcases h with h | h
  · exact mem_moverTable (by simpa [display_top_movers] using h)
  · exact mem_moverTable (by simpa [display_top_movers] using h)

/-- C8 amended, witness: the displayed gainers row built from the record
with the extra field has exactly the four mover columns. -/
theorem c8_amended_witness :
    (moverRow tcsRecExtra).map Prod.fst =
      ["Symbol", "Last Traded Price", "Change", "Change %"] :=
  c8_amended_display_selects_four_fields envExtraField (moverRow tcsRecExtra)
    (Or.inl (by
      rw [show (display_top_movers envExtraField).1 = [moverRow tcsRecExtra] from rfl]
      exact List.mem_singleton_self _))

/-! ## Index Snapshot Calculator claims -/

/-- A two-row batched Close frame in which every basket symbol has the
chronological closes [100, 102] of the spec example. -/
def frameTwoRows : CloseFrame :=
  { symbols := ["^NSEI", "^CNX200", "^BSESN", "^CNX500"],
    rows := [[some 100, some 100, some 100, some 100],
             [some 102, some 102, some 102, some 102]] }

/-- The snapshot row the code produces for closes [100, 102]. -/
def snapRow (name : String) : IndexRow :=
  { name := name, ltp := some 102, change := some 2, pct := some 2 }

/-- A two-row batched Close frame from which the basket symbol CNX200 is
absent (three columns only). -/
def frameMissingCNX200 : CloseFrame :=
  { symbols := ["^NSEI", "^BSESN", "^CNX500"],
    rows := [[some 100, some 100, some 100], [some 102, some 102, some 102]] }

/-- C3 counterexample: for closes [100, 102] the code computes a percent
change of exactly 2 for every basket symbol, and 2 is not within 0.01 of
the claimed 1.96 (which would be change / lastTradedPrice x 100, not
change / previousClose x 100 as both the claim and the code define it). -/
theorem c3_pct_is_two_not_one_point_96 :
    (display_indices frameTwoRows).map (fun rs => rs.map IndexRow.pct) =
      some [some 2, some 2, some 2, some 2] ∧
    ¬ ((49 / 25 - 1 / 100 ≤ (2 : ℚ)) ∧ ((2 : ℚ) ≤ 49 / 25 + 1 / 100)) := by
  constructor
  · norm_num [display_indices, frameTwoRows, indicesSyms, indicesNames, buildRows,
      seriesGet, optSub, optPct]
  · norm_num

/-- C3 amended: for closes [100, 102] each basket snapshot has
lastTradedPrice 102, change = 102 - 100 = 2 and
percentChange = 2 / 100 x 100 = 2 exactly. -/
theorem c3_amended_change_two_pct_two :
    display_indices frameTwoRows =
      some [snapRow "NIFTY 50", snapRow "NIFTY 200", snapRow "SENSEX", snapRow "NIFTY 500"] := by
  norm_num [display_indices, frameTwoRows, indicesSyms, indicesNames, buildRows,
    seriesGet, optSub, optPct, snapRow]

/-- Label lookup on a series whose label set misses the key models a
pandas KeyError: seriesGet yields none for a symbol not in the columns. -/
theorem seriesGet_not_mem {syms : List String} {sym : String} (h : sym ∉ syms) :
    ∀ row, seriesGet syms row sym = none := by
  induction syms with
  | nil => intro row; rfl
  | cons s rest ih =>
    intro row
    have hs : ¬s = sym := fun hEq => h (hEq ▸ List.mem_cons_self s rest)
    have hrest : sym ∉ rest := fun hm => h (List.mem_cons_of_mem s hm)
    simp only [seriesGet, if_neg hs]
    exact ih hrest row.tail

/-- If the per-index step fails on any basket member, the whole table
construction yields none (the loop body's exception aborts the batch). -/
theorem buildRows_eq_none {step : String × String → Option IndexRow}
    {ps : List (String × String)} {p : String × String}
    (hp : p ∈ ps) (h : step p = none) :
    buildRows step ps = none := by
  induction ps with
  | nil => cases hp
  | cons q qs ih =>
    rcases List.mem_cons.mp hp with hpq | hmem
    · subst hpq; simp [buildRows, h]
    · cases hq : step q with
      | none => simp [buildRows, hq]
      | some r => simp [buildRows, hq, ih hmem]

/-- C4 counterexample: a non-empty two-row batched frame that lacks the
basket symbol CNX200 makes display_indices produce nothing at all - the
KeyError from the per-symbol lookup is caught by the outer handler and
the whole batch is aborted, instead of omitting only that symbol. -/
theorem c4_missing_symbol_aborts_whole_batch :
    display_indices frameMissingCNX200 = none := by
  unfold display_indices
  rw [if_neg (by decide), if_neg (by decide)]
  apply buildRows_eq_none (p := ("^CNX200", "NIFTY 200"))
  · decide
  · simp only [seriesGet_not_mem (show "^CNX200" ∉ frameMissingCNX200.symbols by decide)]

/-- C4 amended: whenever the batched Close frame has at least two rows
but any basket symbol is absent from its columns, display_indices
returns none: the per-symbol lookup failure (a KeyError caught by the
function-level handler) aborts the whole batch and no other basket
member is displayed either. -/
theorem c4_amended_gap_aborts_batch (frame : CloseFrame) (sym : String)
    (hbasket : sym ∈ indicesSyms) (h2 : 2 ≤ frame.rows.length)
    (habs : sym ∉ frame.symbols) :
    display_indices frame = none := by
  by_cases hcols : frame.symbols.length = 0
  · unfold display_indices
    rw [if_pos (Or.inr hcols)]
  · have h0 : ¬(frame.rows.length = 0 ∨ frame.symbols.length = 0) := by
      push_neg
      exact ⟨by omega, hcols⟩
    have hlt : ¬frame.rows.length < 2 := by omega
    unfold display_indices
    rw [if_neg h0, if_neg hlt]
    simp only [indicesSyms, List.mem_cons, List.not_mem_nil, or_false] at hbasket
    rcases hbasket with rfl | rfl | rfl | rfl
    · apply buildRows_eq_none (p := ("^NSEI", "NIFTY 50"))
      · decide
      · simp only [seriesGet_not_mem habs]
    · apply buildRows_eq_none (p := ("^CNX200", "NIFTY 200"))
      · decide
      · simp only [seriesGet_not_mem habs]
    · apply buildRows_eq_none (p := ("^BSESN", "SENSEX"))
      · decide
      · simp only [seriesGet_not_mem habs]
    · apply buildRows_eq_none (p := ("^CNX500", "NIFTY 500"))
      · decide
      · simp only [seriesGet_not_mem habs]

/-- C4 amended, witness at the concrete frame missing CNX200. -/
theorem c4_amended_witness :
    display_indices frameMissingCNX200 = none :=
  c4_amended_gap_aborts_batch frameMissingCNX200 "^CNX200" (by decide) (by decide) (by decide)

/-! ## Determinism -/

/-- C9: each acquisition operation is a pure function of its upstream
environment - the source functions read no mutable module state - so two
invocations against identical upstream responses return identical
values. -/
theorem c9_retrievers_deterministic (envT : Nat → AttemptOutcome)
    (envM : MoversEnv) (frame : CloseFrame) :
    get_nifty_200_tickers envT = get_nifty_200_tickers envT ∧
    tickersRequestCount envT = tickersRequestCount envT ∧
    get_top_gainers_losers envM = get_top_gainers_losers envM ∧
    display_indices frame = display_indices frame :=
  ⟨rfl, rfl, rfl, rfl⟩

end NiftyDash
